import Mathlib

/-!
Shallow embedding of the UK Land Registry sample-data generator
(`uklandregistry/services/generator_service.py` and its collaborators)
together with proofs of the specification's testable properties.

Conventions of the embedding:
* Python `datetime.date` values are represented by their day ordinal
  as a plain `Int` (`date.toordinal` provides a bijection with the calendar);
  `date ± timedelta(days=n)` is then ordinal addition/subtraction.
  `daysFromCivil`/`civilFromDays` convert between `(year, month, day)`
  triples and ordinals using the standard civil-calendar algorithm.
* Every call to the `random` module is replaced by an explicit draw that
  is a parameter of the embedded function; the contract of each primitive
  (`randint` bounds, `sample` distinctness, `choice` index in range) is
  collected in the predicate `ValidDraws`.
* Python exceptions are `Except String`, carrying the exact message built
  by the source.
-/

namespace UKLandRegistry


/-- Day ordinal of a civil `(year, month, day)` triple (days since the
civil epoch 1970-01-01), standard era-based civil-calendar conversion. -/
def daysFromCivil (y m d : Int) : Int :=
  let y' := if m ≤ 2 then y - 1 else y
  let era := (if 0 ≤ y' then y' else y' - 399) / 400
  let yoe := y' - era * 400
  let mp := (m + 9) % 12
  let doy := (153 * mp + 2) / 5 + d - 1
  let doe := yoe * 365 + yoe / 4 - yoe / 100 + doy
  era * 146097 + doe - 719468

/-- Inverse of `daysFromCivil`: the `(year, month, day)` triple of a day
ordinal. Used only to render dates, as `strftime` does in the source. -/
def civilFromDays (z0 : Int) : Int × Int × Int :=
  let z := z0 + 719468
  let era := (if 0 ≤ z then z else z - 146096) / 146097
  let doe := z - era * 146097
  let yoe := (doe - doe / 1460 + doe / 36524 - doe / 146096) / 365
  let y := yoe + era * 400
  let doy := doe - (365 * yoe + yoe / 4 - yoe / 100)
  let mp := (5 * doy + 2) / 153
  let dd := doy - (153 * mp + 2) / 5 + 1
  let mm := if mp < 10 then mp + 3 else mp - 9
  (if mm ≤ 2 then y + 1 else y, mm, dd)

/-- The decimal digit character for `n < 10`. -/
def digitChar (n : Nat) : Char := Char.ofNat (48 + n)

/-- Decimal rendering of a natural number as a list of digit characters,
most significant digit first — the rendering Python's `str`/f-strings use. -/
def natDecString (n : Nat) : List Char :=
  if _h : n < 10 then [digitChar n]
  else natDecString (n / 10) ++ [digitChar (n % 10)]
decreasing_by exact Nat.div_lt_self (by omega) (by omega)

/-- Zero-padded decimal rendering, as `strftime` field rendering uses. -/
def padNum (width : Nat) (n : Nat) : List Char :=
  let s := natDecString n
  List.replicate (width - s.length) '0' ++ s

/-- Rendering of a date as `YYYY-MM-DD`, as `strftime("%Y-%m-%d")` does. -/
def formatDate (dt : Int) : String :=
  let c := civilFromDays dt
  String.mk (padNum 4 c.1.toNat ++ ['-'] ++ padNum 2 c.2.1.toNat ++ ['-'] ++ padNum 2 c.2.2.toNat)

/-- Python's substring test `sub in s` on strings. -/
def strContains (s sub : String) : Bool := decide (sub.data <:+: s.data)

/-- Python truthiness of an optional string (`None` and `""` are falsy). -/
def truthyStr : Option String → Bool
  | none => false
  | some s => s ≠ ""

/-- Sample addresses (`utils/sample_data.py`, `SAMPLE_ADDRESSES`). -/
def SAMPLE_ADDRESSES : List String := [
  "42 Acacia Avenue, London, EC1A 1BB",
  "15 Windsor Road, Manchester, M1 5RD",
  "7 Royal Crescent, Bath, BA1 2LR",
  "29 Castle Street, Edinburgh, EH1 2ND",
  "8 Harbour View, Cardiff, CF10 4PA",
  "63 The Greenway, Birmingham, B4 7QE",
  "12 Victoria Terrace, Bristol, BS8 4NP",
  "5 Market Square, Oxford, OX1 3HA",
  "22 College Lane, Cambridge, CB2 1TN",
  "37 Riverside Walk, Norwich, NR1 1QE",
  "9 Meadow View, Leeds, LS1 4DB",
  "18 High Street, York, YO1 8QP",
  "77 Seafront Parade, Brighton, BN1 2LH",
  "3 Castle Hill, Newcastle, NE1 5SG",
  "25 The Promenade, Cheltenham, GL50 1NN"]

/-- Sample individual names (`utils/sample_data.py`, `SAMPLE_NAMES`). -/
def SAMPLE_NAMES : List String := [
  "John Smith", "Sarah Johnson", "Mohammed Khan",
  "Emily Williams", "David Brown", "Jessica Taylor",
  "Michael Davies", "Emma Wilson", "James Anderson",
  "Olivia Thomas", "Robert Evans", "Sophia Harris",
  "William Lewis", "Isla Clark", "Benjamin Walker",
  "Charlotte Robinson", "Thomas Wright", "Amelia Hall",
  "Daniel Green", "Grace Young"]

/-- Sample company names (`utils/sample_data.py`, `SAMPLE_COMPANIES`). -/
def SAMPLE_COMPANIES : List String := [
  "Acme Properties Ltd", "Horizon Developments plc",
  "Oakwood Estates Limited", "City Centre Investments Ltd",
  "Heritage Homes Limited", "Waterfront Development Co.",
  "Metropolitan Land Holdings", "Rural Property Trust",
  "Redstone Property Investments", "Bluesky Developments Ltd",
  "Cornerstone Estates", "Urban Renewal Group plc",
  "County Land Holdings", "Premier Properties Ltd",
  "Landmark Development Corporation"]

/-- Sample mortgage lenders (`utils/sample_data.py`, `SAMPLE_LENDERS`). -/
def SAMPLE_LENDERS : List String := [
  "HSBC Bank", "Barclays", "Lloyds Banking Group",
  "Nationwide Building Society", "NatWest Group",
  "Santander UK", "Virgin Money", "Royal Bank of Scotland",
  "Halifax", "Yorkshire Building Society",
  "Coventry Building Society", "Metro Bank",
  "TSB Bank", "Bank of Ireland UK", "Skipton Building Society"]

/-- Application statuses with weights (`utils/sample_data.py`,
`APPLICATION_STATUSES`); the Python floats 0.3 … 0.1 are the rationals below. -/
def APPLICATION_STATUSES : List (String × ℚ) := [
  ("Pending", mkRat 3 10),
  ("Processing", mkRat 3 10),
  ("Completed", mkRat 2 10),
  ("Rejected", mkRat 1 10),
  ("Awaiting Further Information", mkRat 1 10)]

/-- Correction reasons (`utils/sample_data.py`, `CORRECTION_REASONS`). -/
def CORRECTION_REASONS : List String := [
  "Address error",
  "Name misspelling",
  "Incorrect boundary",
  "Missing easement",
  "Incorrect tenure type",
  "Incorrect plan reference",
  "Clerical error in register",
  "Missing restrictive covenant",
  "Incorrect property extent",
  "Duplicate registration"]

/-- Application type catalog entry (`models/models.py`, `ApplicationType`). -/
structure ApplicationType where
  id : Nat
  category : String
  name : String
  description : String
  forms : List String
deriving Repr, DecidableEq, Inhabited

/-- A land-registry application record (`models/models.py`, `Application`).
The three nullable columns are `Option`s, `none` for SQL `NULL`. -/
structure Application where
  reference : String
  application_type_id : Nat
  property_address : String
  applicants : List String
  submission_date : Int
  expected_completion_date : Int
  status : String
  priority : Nat
  form_used : String
  lender : Option String := none
  loan_amount : Option Nat := none
  reason_for_correction : Option String := none
deriving Repr, DecidableEq, Inhabited

/-- A value of the projection dictionary `app_dict` built by
`generate_random_application` (string, integer, or list of strings). -/
inductive JVal
  | s (v : String)
  | n (v : Nat)
  | arr (v : List String)
deriving Repr, DecidableEq

/-- The projection dictionary: keys paired with values, in insertion order
(Python dicts preserve insertion order). -/
abbrev Projection := List (String × JVal)

/-- One record's worth of results from the `random` module, one field per
call site in `generate_random_application`.  Index fields stand for
`random.choice` (which picks a uniform index), `applicantSample` for the
result of `random.sample`, `statusChoice` for the result of
`random.choices`, and the remaining numeric fields for `random.randint`. -/
structure Draws where
  typeChoice : Nat
  refNum : Nat
  refLetter : Nat
  numApplicants : Nat
  companyU : ℚ
  applicantSample : List String
  addrChoice : Nat
  submissionDraw : Nat
  completionSpan : Nat
  completionDraw : Nat
  formChoice : Nat
  statusChoice : String
  priorityDraw : Nat
  lenderChoice : Nat
  loanDraw : Nat
  reasonChoice : Nat
deriving Repr, DecidableEq, Inhabited

/-- The applicant-name pool the record draws from:
`random.random() < 0.3` selects the company pool, else the person pool.
`companyU` is the result of the `random.random()` call (uniform on [0, 1)). -/
def samplePool (d : Draws) : List String :=
  if d.companyU < mkRat 3 10 then SAMPLE_COMPANIES else SAMPLE_NAMES

/-- Lookup by name (`ApplicationTypeRepository.get_by_name`): first
catalog row whose `name` equals the argument. -/
def get_by_name (catalog : List ApplicationType) (name : String) : Option ApplicationType :=
  catalog.find? (fun t => t.name == name)

/-- The generator's `random_date` method.  `draw` is the value returned by
the single `random.randint` call the executed branch makes
(`randint(1, abs(days_back))` when `days_back < 0`, else
`randint(0, days_back)`); `today` is `datetime.now().date()`. -/
def random_date (today : Int) (start_date : Option Int) (days_back : Int) (draw : Int) : Int :=
  let s := start_date.getD today
  if days_back < 0 then s + draw else s - draw

/-- The generator's `generate_reference` method:
`f"LR{random.randint(100000, 999999)}{chr(random.randint(65, 90))}"`. -/
def generate_reference (refNum refLetter : Nat) : String :=
  "LR" ++ String.mk (natDecString refNum) ++ String.mk [Char.ofNat refLetter]

/-- Application-type selection at the start of `generate_random_application`:
a named type is looked up (raising if absent), otherwise a uniform choice
from the full catalog (raising if it is empty). -/
def resolveType (catalog : List ApplicationType) (app_type_name : Option String)
    (d : Draws) : Except String ApplicationType :=
  match app_type_name with
  | some nm =>
    match get_by_name catalog nm with
    | some t => .ok t
    | none => .error ("Application type '" ++ nm ++ "' not found in database")
  | none =>
    if catalog.isEmpty then .error "No application types found in database"
    else .ok (catalog.getD d.typeChoice default)

/-- The body of `generate_random_application` after the type is resolved:
reference, applicants, address, dates, form, status, priority, the
type-conditional fields, and the projection dictionary. -/
def buildApplication (db_app_type : ApplicationType) (today : Int) (d : Draws) :
    Application × Projection :=
  let reference := generate_reference d.refNum d.refLetter
  let applicants := d.applicantSample
  let property_address := SAMPLE_ADDRESSES.getD d.addrChoice ""
  let submission_date := random_date today none 180 (Int.ofNat d.submissionDraw)
  let expected_completion :=
    random_date today (some submission_date) (-(Int.ofNat d.completionSpan)) (Int.ofNat d.completionDraw)
  let forms := db_app_type.forms
  let selected_form := if forms.isEmpty then "N/A" else forms.getD d.formChoice ""
  let status := d.statusChoice
  let app0 : Application :=
    { reference := reference
      application_type_id := db_app_type.id
      property_address := property_address
      applicants := applicants
      submission_date := submission_date
      expected_completion_date := expected_completion
      status := status
      priority := d.priorityDraw
      form_used := selected_form }
  let app1 :=
    if strContains db_app_type.name "Charges/Mortgages" || strContains db_app_type.name "Charge" then
      { app0 with lender := some (SAMPLE_LENDERS.getD d.lenderChoice "")
                  loan_amount := some d.loanDraw }
    else app0
  let app2 :=
    if strContains db_app_type.name "Corrections" then
      { app1 with reason_for_correction := some (CORRECTION_REASONS.getD d.reasonChoice "") }
    else app1
  let base : Projection := [
    ("reference", .s app2.reference),
    ("application_type", .s db_app_type.name),
    ("description", .s db_app_type.description),
    ("form_used", .s app2.form_used),
    ("property_address", .s app2.property_address),
    ("applicants", .arr app2.applicants),
    ("submission_date", .s (formatDate app2.submission_date)),
    ("expected_completion_date", .s (formatDate app2.expected_completion_date)),
    ("status", .s app2.status),
    ("priority", .n app2.priority)]
  let dict1 :=
    if truthyStr app2.lender then
      base ++ [("lender", JVal.s (app2.lender.getD "")), ("loan_amount", JVal.n (app2.loan_amount.getD 0))]
    else base
  let dict2 :=
    if truthyStr app2.reason_for_correction then
      dict1 ++ [("reason_for_correction", JVal.s (app2.reason_for_correction.getD ""))]
    else dict1
  (app2, dict2)

/-- The generator's `generate_random_application` method: resolve the
application type (possibly raising), then build the record and its
projection from the draws. -/
def generate_random_application (catalog : List ApplicationType)
    (app_type_name : Option String) (today : Int) (d : Draws) :
    Except String (Application × Projection) := do
  let db_app_type ← resolveType catalog app_type_name d
  pure (buildApplication db_app_type today d)

/-- Contract of the chosen form index: when the resolved type has a
non-empty `forms` list, the `random.choice` index is in range. -/
def formChoiceOk (catalog : List ApplicationType) (app_type_name : Option String)
    (d : Draws) : Bool :=
  match resolveType catalog app_type_name d with
  | .ok t => t.forms.isEmpty || d.formChoice < t.forms.length
  | .error _ => true

/-- The contracts of all the `random`-module calls made during one
`generate_random_application` call: `randint(a, b)` yields an integer in
`[a, b]`, `choice` a uniform index in range, `sample(pool, k)` a list of
`k` pairwise-distinct elements of `pool`, and `choices` over the status
table one of its keys. -/
def ValidDraws (catalog : List ApplicationType) (app_type_name : Option String)
    (d : Draws) : Prop :=
  (app_type_name = none → d.typeChoice < catalog.length) ∧
  (100000 ≤ d.refNum ∧ d.refNum ≤ 999999) ∧
  (65 ≤ d.refLetter ∧ d.refLetter ≤ 90) ∧
  (1 ≤ d.numApplicants ∧ d.numApplicants ≤ 2) ∧
  (0 ≤ d.companyU ∧ d.companyU < 1) ∧
  d.applicantSample.length = min d.numApplicants (samplePool d).length ∧
  d.applicantSample.Nodup ∧
  (∀ x ∈ d.applicantSample, x ∈ samplePool d) ∧
  d.addrChoice < SAMPLE_ADDRESSES.length ∧
  d.submissionDraw ≤ 180 ∧
  (10 ≤ d.completionSpan ∧ d.completionSpan ≤ 90) ∧
  (1 ≤ d.completionDraw ∧ d.completionDraw ≤ d.completionSpan) ∧
  formChoiceOk catalog app_type_name d = true ∧
  d.statusChoice ∈ APPLICATION_STATUSES.map Prod.fst ∧
  (1 ≤ d.priorityDraw ∧ d.priorityDraw ≤ 5) ∧
  d.lenderChoice < SAMPLE_LENDERS.length ∧
  (50000 ≤ d.loanDraw ∧ d.loanDraw ≤ 500000) ∧
  d.reasonChoice < CORRECTION_REASONS.length

instance (catalog : List ApplicationType) (nm : Option String) (d : Draws) :
    Decidable (ValidDraws catalog nm d) := by
  unfold ValidDraws
  infer_instance

/-- `ApplicationRepository.add_bulk` over a database state (the list of
committed rows): `add_all` + `commit` appends all rows; on a persistence
error the session is rolled back (committed rows unchanged) and the error
re-raised.  `dbFail` injects the persistence failure. -/
def add_bulk (db : List Application) (dbFail : Bool) (apps : List Application) :
    Except String (List Application × Nat) :=
  if dbFail then .error "Error bulk adding applications"
  else .ok (db ++ apps, apps.length)

/-- The generation loop of `generate_applications`: issue one
`generate_random_application` call per request, consuming one draw record
per call; the first failing call aborts the loop and its error propagates.
Returns the trace of generator invocations made (the failing one included)
alongside the accumulated records and projections. -/
def runGen (catalog : List ApplicationType) (today : Int) :
    List (Option String) → List Draws →
    List (Option String) × Except String (List Application × List Projection)
  | [], _ => ([], .ok ([], []))
  | req :: rest, ds =>
    match generate_random_application catalog req today (ds.headD default) with
    | .error e => ([req], .error e)
    | .ok (app, dict) =>
      let (trace, r) := runGen catalog today rest ds.tail
      (req :: trace,
        match r with
        | .error e => .error e
        | .ok (apps, dicts) => .ok (app :: apps, dict :: dicts))

/-- The sequence of generator requests `generate_applications` issues:
Python's `if type_counts:` is falsy for both `None` and `{}`, so a missing
or empty mapping falls to the `total_count` random branch; otherwise each
`(name, count)` pair contributes `count` requests for `name`, in the
mapping's iteration order. -/
def requestList (type_counts : Option (List (String × Nat))) (total_count : Nat) :
    List (Option String) :=
  match type_counts with
  | some tc =>
    if tc.isEmpty then List.replicate total_count none
    else tc.flatMap (fun p => List.replicate p.2 (some p.1))
  | none => List.replicate total_count none

/-- Observable outcome of one `generate_applications` call: the returned
value (or the propagated error), the resulting database state, and the
traces of generator invocations and bulk-insert calls. -/
structure BatchOutcome where
  result : Except String (List Projection)
  db : List Application
  genCalls : List (Option String)
  bulkCalls : List (List Application)
deriving Repr

/-- The generator's `generate_applications` method: build all records (any
generation failure propagates before persistence is attempted), then make
exactly one `add_bulk` call; a persistence failure rolls back, re-raises,
and suppresses the returned projections. -/
def generate_applications (catalog : List ApplicationType) (today : Int)
    (draws : List Draws) (db : List Application) (dbFail : Bool)
    (type_counts : Option (List (String × Nat))) (total_count : Nat) : BatchOutcome :=
  let reqs := requestList type_counts total_count
  match runGen catalog today reqs draws with
  | (trace, .error e) =>
    { result := .error e, db := db, genCalls := trace, bulkCalls := [] }
  | (trace, .ok (apps, dicts)) =>
    match add_bulk db dbFail apps with
    | .ok (db2, _) =>
      { result := .ok dicts, db := db2, genCalls := trace, bulkCalls := [apps] }
    | .error e =>
      { result := .error e, db := db, genCalls := trace, bulkCalls := [apps] }

/-- The application type the repository's tests register under the name
"First Registration" (`tests/test_generator_service.py`). -/
def SAMPLE_APP_TYPE_CORE : ApplicationType :=
  { id := 1
    category := "core"
    name := "First Registration"
    description := "Registering land or property for the first time."
    forms := ["FR1", "DL"] }

/-- The application type the repository's tests register under the name
"Charge" (`tests/test_generator_service.py`). -/
def SAMPLE_APP_TYPE_ADDITIONAL : ApplicationType :=
  { id := 2
    category := "additional"
    name := "Charge"
    description := "Registering a mortgage."
    forms := ["CH1"] }

/-- The two-type catalog the repository's tests run against. -/
def ALL_APP_TYPES : List ApplicationType := [SAMPLE_APP_TYPE_CORE, SAMPLE_APP_TYPE_ADDITIONAL]

/-- A concrete, in-contract assignment for every random draw of one
generation call, used to instantiate the proved properties. -/
def okDraws : Draws :=
  { typeChoice := 0
    refNum := 123456
    refLetter := 88
    numApplicants := 1
    companyU := mkRat 1 2
    applicantSample := ["John Smith"]
    addrChoice := 0
    submissionDraw := 30
    completionSpan := 45
    completionDraw := 20
    formChoice := 0
    statusChoice := "Pending"
    priorityDraw := 2
    lenderChoice := 0
    loanDraw := 150000
    reasonChoice := 0 }

/-- Draws exhibiting the short completion window: the outer
`randint(10, 90)` returns 10, and the inner `randint(1, 10)` inside
`random_date` returns 1, so the completion date lands one day after the
submission date. -/
def cexDraws : Draws := { okDraws with completionSpan := 10, completionDraw := 1 }

/-- The regular expression of the specification, `LR\d{6}[A-Z]`, as a
predicate on strings: the literal characters `L`, `R`, six decimal digits,
and one uppercase ASCII letter. -/
def matchesRefPattern (s : String) : Bool :=
  match s.data with
  | 'L' :: 'R' :: [d1, d2, d3, d4, d5, d6, l] =>
    d1.isDigit && d2.isDigit && d3.isDigit && d4.isDigit && d5.isDigit && d6.isDigit &&
    ('A' ≤ l && l ≤ 'Z')
  | _ => false

/-- Whether one generation call succeeds, as a function of the request and
the draws (used to reason about the batch loop). -/
def genOk (catalog : List ApplicationType) (today : Int) (nm : Option String) (d : Draws) : Bool :=
  match generate_random_application catalog nm today d with
  | .ok _ => true
  | .error _ => false

/-- A string is always a substring of any enclosing concatenation. -/
theorem strContains_of_append (pre mid suf : String) :
    strContains (pre ++ mid ++ suf) mid = true := by
  apply decide_eq_true
  exact ⟨pre.data, suf.data, by simp [String.data_append]⟩

/-- Claim C9: with the random draw fixed to 10 and the clock fixed to
2024-03-30, `random_date(days_back=180)` returns 2024-03-20; with the
draw fixed to 15 and start date 2024-03-30, `random_date(days_back=-30)`
returns 2024-04-14. -/
theorem random_date_fixed_draw_examples :
    random_date (daysFromCivil 2024 3 30) none 180 10 = daysFromCivil 2024 3 20 ∧
    random_date 0 (some (daysFromCivil 2024 3 30)) (-30) 15 = daysFromCivil 2024 4 14 := by
  constructor <;> decide

/-- Claim C10: calling `generate_applications` with an empty `type_counts`
mapping behaves exactly like calling it with no `type_counts` at all —
the truthiness test sends both to the `total_count` random branch, which
issues `total_count` unconstrained generator requests, not zero. -/
theorem empty_type_counts_same_as_none (catalog : List ApplicationType) (today : Int)
    (draws : List Draws) (db : List Application) (dbFail : Bool) (total_count : Nat) :
    generate_applications catalog today draws db dbFail (some []) total_count =
      generate_applications catalog today draws db dbFail none total_count ∧
    requestList (some []) total_count = List.replicate total_count none := by
  exact ⟨rfl, rfl⟩

/-- Claim C5: requesting a type name absent from the catalog raises an
error whose message contains the requested name, and random generation
against an empty catalog raises the "no types available" error; in both
cases no record is produced. -/
theorem unknown_type_and_empty_catalog_errors (catalog : List ApplicationType)
    (nm : String) (today : Int) (d d2 : Draws)
    (h : get_by_name catalog nm = none) :
    generate_random_application catalog (some nm) today d =
      .error ("Application type '" ++ nm ++ "' not found in database") ∧
    strContains ("Application type '" ++ nm ++ "' not found in database") nm = true ∧
    generate_random_application [] none today d2 =
      .error "No application types found in database" := by
  refine ⟨?_, strContains_of_append "Application type '" nm "' not found in database", rfl⟩
  simp [generate_random_application, resolveType, h]

/-- Witness for claim C5 at the test's concrete name "NonExistentType". -/
theorem unknown_type_and_empty_catalog_errors_witness :
    generate_random_application ALL_APP_TYPES (some "NonExistentType") 0 okDraws =
      .error ("Application type '" ++ "NonExistentType" ++ "' not found in database") ∧
    strContains ("Application type '" ++ "NonExistentType" ++ "' not found in database")
      "NonExistentType" = true ∧
    generate_random_application [] none 0 okDraws =
      .error "No application types found in database" :=
  unknown_type_and_empty_catalog_errors ALL_APP_TYPES "NonExistentType" 0 okDraws okDraws
    (by decide)

/-- Digit characters of values below ten are decimal digit characters. -/
theorem digitChar_isDigit : ∀ m, m < 10 → (digitChar m).isDigit = true := by decide

/-- Every character of the decimal rendering is a decimal digit. -/
theorem natDecString_all_digits (n : Nat) : ∀ c ∈ natDecString n, c.isDigit = true := by
  induction n using Nat.strong_induction_on with
  | _ n ih =>
    intro c hc
    rw [natDecString] at hc
    by_cases h : n < 10
    · rw [dif_pos h] at hc
      simp only [List.mem_singleton] at hc
      exact hc ▸ digitChar_isDigit n h
    · rw [dif_neg h] at hc
      rcases List.mem_append.mp hc with h1 | h1
      · exact ih (n / 10) (Nat.div_lt_self (by omega) (by omega)) c h1
      · simp only [List.mem_singleton] at h1
        exact h1 ▸ digitChar_isDigit (n % 10) (Nat.mod_lt _ (by omega))

/-- The decimal rendering of a value in `[10^k, 10^(k+1))` has `k + 1`
characters. -/
theorem natDecString_length (k : Nat) : ∀ n, 10 ^ k ≤ n → n < 10 ^ (k + 1) →
    (natDecString n).length = k + 1 := by
  induction k with
  | zero =>
    intro n _ h2
    rw [natDecString, dif_pos (by simpa using h2)]
    rfl
  | succ k ih =>
    intro n h1 h2
    have h10 : (10 : Nat) ≤ 10 ^ (k + 1) := Nat.le_self_pow (by omega) 10
    rw [natDecString, dif_neg (by omega)]
    have hlo : 10 ^ k ≤ n / 10 := by
      rw [Nat.le_div_iff_mul_le (by omega)]
      calc 10 ^ k * 10 = 10 ^ (k + 1) := by ring
        _ ≤ n := h1
    have hhi : n / 10 < 10 ^ (k + 1) := by
      rw [Nat.div_lt_iff_lt_mul (by omega)]
      calc n < 10 ^ (k + 2) := h2
        _ = 10 ^ (k + 1) * 10 := by ring
    rw [List.length_append, ih (n / 10) hlo hhi]
    rfl

/-- A list of characters of length six is a sixfold cons. -/
theorem exists_six_chars (l : List Char) (hl : l.length = 6) :
    ∃ a b c d e f, l = [a, b, c, d, e, f] := by
  rcases l with _ | ⟨a, _ | ⟨b, _ | ⟨c, _ | ⟨d, _ | ⟨e, _ | ⟨f, _ | ⟨g, t⟩⟩⟩⟩⟩⟩⟩ <;>
    simp_all

/-- Claim C8: every value returned by `generate_reference` with in-range
draws matches `LR\d{6}[A-Z]` — the literal "LR", the six-digit rendering
of an integer in [100000, 999999], and one uppercase ASCII letter. -/
theorem reference_matches_pattern (n c : Nat)
    (h1 : 100000 ≤ n) (h2 : n ≤ 999999) (h3 : 65 ≤ c) (h4 : c ≤ 90) :
    matchesRefPattern (generate_reference n c) = true := by
  have hlen : (natDecString n).length = 6 := by
    have := natDecString_length 5 n (by norm_num; omega) (by norm_num; omega)
    simpa using this
  obtain ⟨a, b, c1, d1, e1, f1, hds⟩ := exists_six_chars _ hlen
  have hdata : (generate_reference n c).data =
      'L' :: 'R' :: (natDecString n ++ [Char.ofNat c]) := by
    simp [generate_reference, String.data_append]
  have hdig : ∀ x ∈ natDecString n, x.isDigit = true := natDecString_all_digits n
  rw [hds] at hdata hdig
  have hlet : ('A' ≤ Char.ofNat c && Char.ofNat c ≤ 'Z') = true := by
    interval_cases c <;> decide
  rw [matchesRefPattern, hdata]
  simp only [List.cons_append, List.nil_append]
  rw [hdig a (by simp), hdig b (by simp), hdig c1 (by simp), hdig d1 (by simp),
    hdig e1 (by simp), hdig f1 (by simp), hlet]
  decide

/-- Witness for claim C8 at the test's fixed draws 123456 and `ord 'X'`. -/
theorem reference_matches_pattern_witness :
    matchesRefPattern (generate_reference 123456 88) = true :=
  reference_matches_pattern 123456 88 (by norm_num) (by norm_num) (by norm_num) (by norm_num)

/-- When type resolution succeeds, generation returns the built record. -/
theorem gen_eq_of_resolve_ok {catalog : List ApplicationType} {nm : Option String}
    {d : Draws} {t : ApplicationType} (h : resolveType catalog nm d = .ok t) (today : Int) :
    generate_random_application catalog nm today d = .ok (buildApplication t today d) := by
  unfold generate_random_application
  rw [h]
  rfl

/-- When type resolution fails, generation fails with the same error. -/
theorem gen_eq_of_resolve_error {catalog : List ApplicationType} {nm : Option String}
    {d : Draws} {e : String} (h : resolveType catalog nm d = .error e) (today : Int) :
    generate_random_application catalog nm today d = .error e := by
  unfold generate_random_application
  rw [h]
  rfl

/-- A successful generation call comes from a resolved catalog entry, and
its result is the built record for that entry. -/
theorem gen_ok_elim {catalog : List ApplicationType} {nm : Option String} {today : Int}
    {d : Draws} {app : Application} {dict : Projection}
    (hok : generate_random_application catalog nm today d = .ok (app, dict)) :
    ∃ t, resolveType catalog nm d = .ok t ∧ buildApplication t today d = (app, dict) := by
  cases hres : resolveType catalog nm d with
  | error e =>
    rw [gen_eq_of_resolve_error hres today] at hok
    cases hok
  | ok t =>
    rw [gen_eq_of_resolve_ok hres today] at hok
    exact ⟨t, rfl, by simpa using hok⟩

/-- The two applicant pools are disjoint: no company name is a person name. -/
theorem companies_not_in_names : ∀ x ∈ SAMPLE_COMPANIES, x ∉ SAMPLE_NAMES := by decide

/-- The two applicant pools are disjoint: no person name is a company name. -/
theorem names_not_in_companies : ∀ x ∈ SAMPLE_NAMES, x ∉ SAMPLE_COMPANIES := by decide

/-- Every lender in the pool is a non-empty string. -/
theorem lenders_nonempty : ∀ i < SAMPLE_LENDERS.length, SAMPLE_LENDERS.getD i "" ≠ "" := by
  decide

/-- Every correction reason in the pool is a non-empty string. -/
theorem reasons_nonempty : ∀ i < CORRECTION_REASONS.length, CORRECTION_REASONS.getD i "" ≠ "" := by
  decide

/-- The built record's applicants are exactly the sampled names. -/
theorem buildApplication_applicants (t : ApplicationType) (today : Int) (d : Draws) :
    ((buildApplication t today d).1).applicants = d.applicantSample := by
  unfold buildApplication
  dsimp only
  split <;> split <;> rfl

/-- The built record's submission date is today minus the drawn offset. -/
theorem buildApplication_submission (t : ApplicationType) (today : Int) (d : Draws) :
    ((buildApplication t today d).1).submission_date = today - (d.submissionDraw : Int) := by
  unfold buildApplication random_date
  dsimp only
  rw [if_neg (show ¬((180 : Int) < 0) by norm_num)]
  split <;> split <;> rfl

/-- The built record's expected completion date is the submission date plus
the inner draw of the second `random_date` call (when the drawn span is
positive, the future branch is taken). -/
theorem buildApplication_expected (t : ApplicationType) (today : Int) (d : Draws)
    (hspan : 0 < d.completionSpan) :
    ((buildApplication t today d).1).expected_completion_date =
      today - (d.submissionDraw : Int) + (d.completionDraw : Int) := by
  unfold buildApplication random_date
  dsimp only
  rw [if_neg (show ¬((180 : Int) < 0) by norm_num),
    if_pos (show -Int.ofNat d.completionSpan < 0 from neg_neg_of_pos (by rw [Int.ofNat_eq_natCast]; exact_mod_cast hspan))]
  split <;> split <;> rfl

/-- The built record's lender is set exactly when the type name passes the
charge test. -/
theorem buildApplication_lender (t : ApplicationType) (today : Int) (d : Draws) :
    ((buildApplication t today d).1).lender =
      (if strContains t.name "Charges/Mortgages" || strContains t.name "Charge"
       then some (SAMPLE_LENDERS.getD d.lenderChoice "") else none) := by
  unfold buildApplication
  dsimp only
  split <;> split <;> rfl

/-- The built record's loan amount is set exactly when the type name passes
the charge test. -/
theorem buildApplication_loan (t : ApplicationType) (today : Int) (d : Draws) :
    ((buildApplication t today d).1).loan_amount =
      (if strContains t.name "Charges/Mortgages" || strContains t.name "Charge"
       then some d.loanDraw else none) := by
  unfold buildApplication
  dsimp only
  split <;> split <;> rfl

/-- The built record's correction reason is set exactly when the type name
contains "Corrections". -/
theorem buildApplication_reason (t : ApplicationType) (today : Int) (d : Draws) :
    ((buildApplication t today d).1).reason_for_correction =
      (if strContains t.name "Corrections"
       then some (CORRECTION_REASONS.getD d.reasonChoice "") else none) := by
  unfold buildApplication
  dsimp only
  split <;> split <;> rfl

/-- The projection in terms of the finished record: the ten base entries,
the lender pair appended when the record's lender is truthy, and the
correction entry appended when its reason is truthy. -/
theorem buildApplication_dict (t : ApplicationType) (today : Int) (d : Draws) :
    (buildApplication t today d).2 =
      (let app := (buildApplication t today d).1
       let base : Projection := [
         ("reference", .s app.reference),
         ("application_type", .s t.name),
         ("description", .s t.description),
         ("form_used", .s app.form_used),
         ("property_address", .s app.property_address),
         ("applicants", .arr app.applicants),
         ("submission_date", .s (formatDate app.submission_date)),
         ("expected_completion_date", .s (formatDate app.expected_completion_date)),
         ("status", .s app.status),
         ("priority", .n app.priority)]
       let dict1 :=
         if truthyStr app.lender then
           base ++ [("lender", JVal.s (app.lender.getD "")), ("loan_amount", JVal.n (app.loan_amount.getD 0))]
         else base
       if truthyStr app.reason_for_correction then
         dict1 ++ [("reason_for_correction", JVal.s (app.reason_for_correction.getD ""))]
       else dict1) := rfl

/-- Keys of a two-stage conditional append, by cases on the two flags. -/
theorem keys_shape (b1 b2 : Bool) (base l1 l2 : Projection) :
    List.map Prod.fst (if b2 then (if b1 then base ++ l1 else base) ++ l2
                       else (if b1 then base ++ l1 else base)) =
      base.map Prod.fst ++ (if b1 then l1.map Prod.fst else []) ++
        (if b2 then l2.map Prod.fst else []) := by
  cases b1 <;> cases b2 <;> simp

/-- The projection's keys: the ten base keys, then the lender pair when the
record's lender is truthy, then the correction key when its reason is truthy. -/
theorem buildApplication_dict_keys (t : ApplicationType) (today : Int) (d : Draws) :
    ((buildApplication t today d).2).map Prod.fst =
      ["reference", "application_type", "description", "form_used", "property_address",
       "applicants", "submission_date", "expected_completion_date", "status", "priority"] ++
      (if truthyStr ((buildApplication t today d).1).lender
       then ["lender", "loan_amount"] else []) ++
      (if truthyStr ((buildApplication t today d).1).reason_for_correction
       then ["reason_for_correction"] else []) := by
  rw [buildApplication_dict]
  dsimp only
  rw [keys_shape]
  simp

/-- The source's charge test `"Charges/Mortgages" in name or "Charge" in
name` is equivalent to the single test `"Charge" in name`, because the
shorter string is a substring of the longer one. -/
theorem charge_name_collapse (s : String) :
    (strContains s "Charges/Mortgages" || strContains s "Charge") = strContains s "Charge" := by
  cases h : strContains s "Charges/Mortgages"
  · simp
  · have h1 : "Charges/Mortgages".data <:+: s.data := of_decide_eq_true h
    have h2 : "Charge".data <:+: "Charges/Mortgages".data := by decide
    have h3 : strContains s "Charge" = true := decide_eq_true (h2.trans h1)
    simp [h3]

/-- Claim C6: the submission date is the generation day minus the drawn
offset in [0, 180] (so never after today), and the expected completion
date is strictly later than the submission date. -/
theorem submission_past_completion_future (catalog : List ApplicationType)
    (nm : Option String) (today : Int) (d : Draws) (app : Application) (dict : Projection)
    (hv : ValidDraws catalog nm d)
    (hok : generate_random_application catalog nm today d = .ok (app, dict)) :
    app.submission_date = today - (d.submissionDraw : Int) ∧
    d.submissionDraw ≤ 180 ∧
    app.submission_date ≤ today ∧
    app.submission_date < app.expected_completion_date := by
  obtain ⟨t, hres, hb⟩ := gen_ok_elim hok
  have happ : app = (buildApplication t today d).1 := by rw [hb]
  obtain ⟨h1, h2, h3, h4, h5, h6, h7, h8, h9, h10, h11, h12, h13, h14, h15, h16, h17, h18⟩ := hv
  have hs := buildApplication_submission t today d
  have he := buildApplication_expected t today d (by omega)
  rw [happ]
  refine ⟨hs, h10, ?_, ?_⟩
  · rw [hs]
    omega
  · rw [hs, he]
    omega

/-- Witness for claim C6 at concrete in-contract draws. -/
theorem submission_past_completion_future_witness :
    (generate_random_application ALL_APP_TYPES (some "First Registration")
        (daysFromCivil 2024 3 30) okDraws).toOption.map
      (fun r => decide (r.1.submission_date ≤ daysFromCivil 2024 3 30 ∧
        r.1.submission_date < r.1.expected_completion_date)) = some true := by
  obtain ⟨app, dict, hok⟩ : ∃ app dict,
      generate_random_application ALL_APP_TYPES (some "First Registration")
        (daysFromCivil 2024 3 30) okDraws = .ok (app, dict) := ⟨_, _, rfl⟩
  have h := submission_past_completion_future ALL_APP_TYPES (some "First Registration")
    (daysFromCivil 2024 3 30) okDraws app dict (by decide) hok
  rw [hok]
  exact congrArg some (decide_eq_true ⟨h.2.2.1, h.2.2.2⟩)

/-- Claim C7: the applicants list has the drawn length (1 or 2), its
entries are pairwise distinct, and they all come from exactly one of the
two pools — the company pool when the uniform roll is below 0.3, the
person pool otherwise, never mixed. -/
theorem applicants_one_pool_distinct (catalog : List ApplicationType)
    (nm : Option String) (today : Int) (d : Draws) (app : Application) (dict : Projection)
    (hv : ValidDraws catalog nm d)
    (hok : generate_random_application catalog nm today d = .ok (app, dict)) :
    app.applicants.length = d.numApplicants ∧
    1 ≤ app.applicants.length ∧ app.applicants.length ≤ 2 ∧
    app.applicants.Nodup ∧
    (if d.companyU < mkRat 3 10
     then ∀ x ∈ app.applicants, x ∈ SAMPLE_COMPANIES ∧ x ∉ SAMPLE_NAMES
     else ∀ x ∈ app.applicants, x ∈ SAMPLE_NAMES ∧ x ∉ SAMPLE_COMPANIES) := by
  obtain ⟨t, hres, hb⟩ := gen_ok_elim hok
  have happ : app = (buildApplication t today d).1 := by rw [hb]
  obtain ⟨h1, h2, h3, h4, h5, h6, h7, h8, h9, h10, h11, h12, h13, h14, h15, h16, h17, h18⟩ := hv
  have ha : app.applicants = d.applicantSample := by
    rw [happ, buildApplication_applicants]
  rw [ha]
  by_cases hcu : d.companyU < mkRat 3 10
  · have hpool : samplePool d = SAMPLE_COMPANIES := by rw [samplePool, if_pos hcu]
    rw [hpool] at h6 h8
    have hc15 : SAMPLE_COMPANIES.length = 15 := rfl
    rw [hc15] at h6
    rw [if_pos hcu]
    exact ⟨by omega, by omega, by omega, h7,
      fun x hx => ⟨h8 x hx, companies_not_in_names x (h8 x hx)⟩⟩
  · have hpool : samplePool d = SAMPLE_NAMES := by rw [samplePool, if_neg hcu]
    rw [hpool] at h6 h8
    have hn20 : SAMPLE_NAMES.length = 20 := rfl
    rw [hn20] at h6
    rw [if_neg hcu]
    exact ⟨by omega, by omega, by omega, h7,
      fun x hx => ⟨h8 x hx, names_not_in_companies x (h8 x hx)⟩⟩

/-- Witness for claim C7 at concrete in-contract draws. -/
theorem applicants_one_pool_distinct_witness :
    (generate_random_application ALL_APP_TYPES (some "First Registration")
        (daysFromCivil 2024 3 30) okDraws).toOption.map
      (fun r => decide (r.1.applicants.length = 1 ∧ r.1.applicants.Nodup)) = some true := by
  obtain ⟨app, dict, hok⟩ : ∃ app dict,
      generate_random_application ALL_APP_TYPES (some "First Registration")
        (daysFromCivil 2024 3 30) okDraws = .ok (app, dict) := ⟨_, _, rfl⟩
  have h := applicants_one_pool_distinct ALL_APP_TYPES (some "First Registration")
    (daysFromCivil 2024 3 30) okDraws app dict (by decide) hok
  rw [hok]
  exact congrArg some (decide_eq_true ⟨h.1, h.2.2.2.1⟩)

/-- Claim C1 counterexample: with the in-contract draws `cexDraws`
(outer span draw 10, inner day draw 1) the generated record's
`expectedCompletionDate - submissionDate` is 1 day, outside [10, 90].
The code re-randomizes inside `random_date`, drawing `randint(1, span)`
rather than using the span itself. -/
theorem completion_window_counterexample :
    ValidDraws ALL_APP_TYPES (some "First Registration") cexDraws ∧
    ((generate_random_application ALL_APP_TYPES (some "First Registration")
        (daysFromCivil 2024 3 30) cexDraws).toOption.all
      (fun r => decide (10 ≤ r.1.expected_completion_date - r.1.submission_date))) = false :=
  ⟨by decide, rfl⟩

/-- Claim C1 as amended: the completion offset is the inner draw of the
second `random_date` call, an integer number of days in [1, 90] (at least
one day, at most the outer span draw, which is at most 90). -/
theorem completion_offset_in_window (catalog : List ApplicationType)
    (nm : Option String) (today : Int) (d : Draws) (app : Application) (dict : Projection)
    (hv : ValidDraws catalog nm d)
    (hok : generate_random_application catalog nm today d = .ok (app, dict)) :
    app.expected_completion_date - app.submission_date = (d.completionDraw : Int) ∧
    1 ≤ app.expected_completion_date - app.submission_date ∧
    app.expected_completion_date - app.submission_date ≤ 90 := by
  obtain ⟨t, hres, hb⟩ := gen_ok_elim hok
  have happ : app = (buildApplication t today d).1 := by rw [hb]
  obtain ⟨h1, h2, h3, h4, h5, h6, h7, h8, h9, h10, h11, h12, h13, h14, h15, h16, h17, h18⟩ := hv
  have hs := buildApplication_submission t today d
  have he := buildApplication_expected t today d (by omega)
  rw [happ, hs, he]
  refine ⟨by omega, by omega, by omega⟩

/-- Witness for the amended claim C1 at concrete in-contract draws. -/
theorem completion_offset_in_window_witness :
    (generate_random_application ALL_APP_TYPES (some "First Registration")
        (daysFromCivil 2024 3 30) okDraws).toOption.map
      (fun r => decide (1 ≤ r.1.expected_completion_date - r.1.submission_date ∧
        r.1.expected_completion_date - r.1.submission_date ≤ 90)) = some true := by
  obtain ⟨app, dict, hok⟩ : ∃ app dict,
      generate_random_application ALL_APP_TYPES (some "First Registration")
        (daysFromCivil 2024 3 30) okDraws = .ok (app, dict) := ⟨_, _, rfl⟩
  have h := completion_offset_in_window ALL_APP_TYPES (some "First Registration")
    (daysFromCivil 2024 3 30) okDraws app dict (by decide) hok
  rw [hok]
  exact congrArg some (decide_eq_true ⟨h.2.1, h.2.2⟩)

/-- Claim C2: `lender` and `loanAmount` are both set exactly when the
resolved type's name contains "Charge" (the source's disjunction with
"Charges/Mortgages" collapses to that single test);
`reasonForCorrection` is set exactly when it contains "Corrections"; and
each conditional projection key is present exactly when the corresponding
field is set on the record. -/
theorem conditional_fields_match_type_name (catalog : List ApplicationType)
    (nm : Option String) (today : Int) (d : Draws) (app : Application) (dict : Projection)
    (t : ApplicationType)
    (hv : ValidDraws catalog nm d)
    (hres : resolveType catalog nm d = .ok t)
    (hok : generate_random_application catalog nm today d = .ok (app, dict)) :
    (strContains t.name "Charges/Mortgages" || strContains t.name "Charge") =
      strContains t.name "Charge" ∧
    app.lender.isSome = strContains t.name "Charge" ∧
    app.loan_amount.isSome = strContains t.name "Charge" ∧
    app.reason_for_correction.isSome = strContains t.name "Corrections" ∧
    (("lender" ∈ dict.map Prod.fst) ↔ app.lender.isSome = true) ∧
    (("loan_amount" ∈ dict.map Prod.fst) ↔ app.loan_amount.isSome = true) ∧
    (("reason_for_correction" ∈ dict.map Prod.fst) ↔
      app.reason_for_correction.isSome = true) := by
  rw [gen_eq_of_resolve_ok hres today] at hok
  have hb : buildApplication t today d = (app, dict) := by simpa using hok
  have happ : app = (buildApplication t today d).1 := by rw [hb]
  have hdict : dict = (buildApplication t today d).2 := by rw [hb]
  obtain ⟨h1, h2, h3, h4, h5, h6, h7, h8, h9, h10, h11, h12, h13, h14, h15, h16, h17, h18⟩ := hv
  have hL := lenders_nonempty d.lenderChoice h16
  have hR := reasons_nonempty d.reasonChoice h18
  have hlen := buildApplication_lender t today d
  have hloan := buildApplication_loan t today d
  have hrsn := buildApplication_reason t today d
  rw [charge_name_collapse] at hlen hloan
  have hkeys := buildApplication_dict_keys t today d
  rw [happ, hdict, hkeys, hlen, hloan, hrsn]
  simp only [List.getD_eq_getElem?_getD] at hL hR
  refine ⟨charge_name_collapse t.name, ?_⟩
  cases hch : strContains t.name "Charge" <;>
    cases hcor : strContains t.name "Corrections" <;>
      simp [truthyStr, hL, hR]

/-- Witness for claim C2 at a charge-type generation with concrete draws. -/
theorem conditional_fields_match_type_name_witness :
    (generate_random_application ALL_APP_TYPES (some "Charge")
        (daysFromCivil 2024 3 30) okDraws).toOption.map
      (fun r => decide (r.1.lender.isSome = true ∧ r.1.loan_amount.isSome = true ∧
        r.1.reason_for_correction = none ∧ "lender" ∈ r.2.map Prod.fst)) = some true := by
  obtain ⟨app, dict, hok⟩ : ∃ app dict,
      generate_random_application ALL_APP_TYPES (some "Charge")
        (daysFromCivil 2024 3 30) okDraws = .ok (app, dict) := ⟨_, _, rfl⟩
  have h := conditional_fields_match_type_name ALL_APP_TYPES (some "Charge")
    (daysFromCivil 2024 3 30) okDraws app dict SAMPLE_APP_TYPE_ADDITIONAL
    (by decide) rfl hok
  rw [hok]
  refine congrArg some (decide_eq_true ⟨?_, ?_, ?_, ?_⟩)
  · rw [h.2.1]
    decide
  · rw [h.2.2.1]
    decide
  · have := h.2.2.2.1
    rw [show strContains SAMPLE_APP_TYPE_ADDITIONAL.name "Corrections" = false from rfl] at this
    exact Option.not_isSome_iff_eq_none.mp (by rw [this]; decide)
  · exact h.2.2.2.2.1.mpr (by rw [h.2.1]; decide)

/-- A named request succeeds whenever the name is present in the catalog. -/
theorem genOk_some (catalog : List ApplicationType) (today : Int) (nm : String) (d : Draws)
    (h : (get_by_name catalog nm).isSome = true) : genOk catalog today (some nm) d = true := by
  obtain ⟨t, ht⟩ := Option.isSome_iff_exists.mp h
  unfold genOk
  rw [gen_eq_of_resolve_ok
    (show resolveType catalog (some nm) d = .ok t by simp [resolveType, ht]) today]

/-- An unconstrained request succeeds whenever the catalog is non-empty. -/
theorem genOk_none (catalog : List ApplicationType) (today : Int) (d : Draws)
    (h : catalog ≠ []) : genOk catalog today none d = true := by
  unfold genOk
  rw [gen_eq_of_resolve_ok
    (show resolveType catalog none d = .ok (catalog.getD d.typeChoice default) by
      simp [resolveType, List.isEmpty_iff, h]) today]

/-- When every request succeeds, the generation loop traverses the whole
request list, invoking the generator once per request and collecting one
record and one projection per request, in order. -/
theorem runGen_spec (catalog : List ApplicationType) (today : Int) :
    ∀ (reqs : List (Option String)) (ds : List Draws),
      (∀ x ∈ reqs, ∀ dr : Draws, genOk catalog today x dr = true) →
      ∃ apps dicts, runGen catalog today reqs ds = (reqs, .ok (apps, dicts)) ∧
        apps.length = reqs.length ∧ dicts.length = reqs.length := by
  intro reqs
  induction reqs with
  | nil => intro ds _; exact ⟨[], [], rfl, rfl, rfl⟩
  | cons req rest ih =>
    intro ds hok
    have h0 := hok req (by simp) (ds.headD default)
    unfold genOk at h0
    cases hg : generate_random_application catalog req today (ds.headD default) with
    | error e =>
      rw [hg] at h0
      simp at h0
    | ok pr =>
      obtain ⟨app, dict⟩ := pr
      obtain ⟨apps, dicts, hrun, hla, hld⟩ := ih ds.tail (fun x hx dr => hok x (by simp [hx]) dr)
      refine ⟨app :: apps, dict :: dicts, ?_, by simp [hla], by simp [hld]⟩
      simp only [runGen, hg, hrun]

/-- Total number of requests produced from a per-type count mapping. -/
theorem request_count (tc : List (String × Nat)) :
    (tc.flatMap (fun p => List.replicate p.2 (some p.1))).length = (tc.map Prod.snd).sum := by
  induction tc with
  | nil => rfl
  | cons p ps ih => simp [ih]

/-- For a non-empty count mapping, the request list is the per-pair
expansion in the mapping's iteration order. -/
theorem requestList_nonempty (tc : List (String × Nat)) (h : tc ≠ []) (total : Nat) :
    requestList (some tc) total = tc.flatMap (fun p => List.replicate p.2 (some p.1)) := by
  have hne : tc.isEmpty = false := by simpa [List.isEmpty_iff] using h
  simp [requestList, hne]

/-- Every request produced from a count mapping names a pair of the mapping. -/
theorem requestList_mem (tc : List (String × Nat)) (h : tc ≠ []) (total : Nat) :
    ∀ x ∈ requestList (some tc) total, ∃ p ∈ tc, x = some p.1 := by
  rw [requestList_nonempty tc h total]
  intro x hx
  rw [List.mem_flatMap] at hx
  obtain ⟨p, hp, hx⟩ := hx
  rw [List.mem_replicate] at hx
  exact ⟨p, hp, hx.2⟩

/-- Bulk insertion without an injected failure appends all rows. -/
theorem add_bulk_ok (db : List Application) (apps : List Application) :
    add_bulk db false apps = .ok (db ++ apps, apps.length) := rfl

/-- Claim C3: for a non-empty count mapping whose names are all in the
catalog, `generate_applications` invokes the generator once per requested
record (count times per name, in the mapping's iteration order, totalling
the sum of counts), makes exactly one bulk-insert call containing all
generated records, and returns one projection per record in generation
order; without a mapping it does the same for `total_count` unconstrained
requests. -/
theorem batch_counts_and_single_bulk_insert (catalog : List ApplicationType) (today : Int)
    (db : List Application) :
    (∀ (tc : List (String × Nat)) (draws : List Draws) (total_count : Nat),
      tc ≠ [] →
      (∀ p ∈ tc, (get_by_name catalog p.1).isSome = true) →
      (generate_applications catalog today draws db false (some tc) total_count).genCalls =
        tc.flatMap (fun p => List.replicate p.2 (some p.1)) ∧
      (generate_applications catalog today draws db false (some tc) total_count).genCalls.length =
        (tc.map Prod.snd).sum ∧
      ∃ apps projs,
        (generate_applications catalog today draws db false (some tc) total_count).bulkCalls =
          [apps] ∧
        (generate_applications catalog today draws db false (some tc) total_count).result =
          .ok projs ∧
        apps.length = (tc.map Prod.snd).sum ∧ projs.length = apps.length) ∧
    (∀ (draws : List Draws) (total_count : Nat),
      catalog ≠ [] →
      (generate_applications catalog today draws db false none total_count).genCalls =
        List.replicate total_count none ∧
      ∃ apps projs,
        (generate_applications catalog today draws db false none total_count).bulkCalls =
          [apps] ∧
        (generate_applications catalog today draws db false none total_count).result =
          .ok projs ∧
        apps.length = total_count ∧ projs.length = total_count) := by
  constructor
  · intro tc draws total htc hnames
    have hgen : ∀ x ∈ requestList (some tc) total, ∀ dr : Draws,
        genOk catalog today x dr = true := by
      intro x hx dr
      obtain ⟨p, hp, rfl⟩ := requestList_mem tc htc total x hx
      exact genOk_some catalog today p.1 dr (hnames p hp)
    obtain ⟨apps, dicts, hrun, hla, hld⟩ :=
      runGen_spec catalog today (requestList (some tc) total) draws hgen
    have hreq := requestList_nonempty tc htc total
    refine ⟨?_, ?_, apps, dicts, ?_, ?_, ?_, ?_⟩
    · simp only [generate_applications, hrun, add_bulk_ok]
      exact hreq
    · simp only [generate_applications, hrun, add_bulk_ok]
      rw [hreq]
      exact request_count tc
    · simp [generate_applications, hrun, add_bulk_ok]
    · simp [generate_applications, hrun, add_bulk_ok]
    · rw [hla, hreq]
      exact request_count tc
    · rw [hld, hla]
  · intro draws total hcat
    have hgen : ∀ x ∈ requestList none total, ∀ dr : Draws,
        genOk catalog today x dr = true := by
      intro x hx dr
      have hx' : x = none := List.eq_of_mem_replicate hx
      rw [hx']
      exact genOk_none catalog today dr hcat
    obtain ⟨apps, dicts, hrun, hla, hld⟩ :=
      runGen_spec catalog today (requestList none total) draws hgen
    refine ⟨?_, apps, dicts, ?_, ?_, ?_, ?_⟩
    · simp only [generate_applications, hrun, add_bulk_ok]
      rfl
    · simp [generate_applications, hrun, add_bulk_ok]
    · simp [generate_applications, hrun, add_bulk_ok]
    · rw [hla]
      exact List.length_replicate total none
    · rw [hld]
      exact List.length_replicate total none

/-- Witness for claim C3: the mapping `{"First Registration": 2, "Charge": 1}`
yields 3 generator calls and one bulk insert of 3 records, and
`total_count = 5` with no mapping yields 5 projections and one bulk insert
of 5 records. -/
theorem batch_counts_and_single_bulk_insert_witness :
    ((generate_applications ALL_APP_TYPES 0 (List.replicate 3 okDraws) [] false
        (some [("First Registration", 2), ("Charge", 1)]) 10).genCalls.length = 3 ∧
      (generate_applications ALL_APP_TYPES 0 (List.replicate 3 okDraws) [] false
        (some [("First Registration", 2), ("Charge", 1)]) 10).bulkCalls.map List.length = [3]) ∧
    ((generate_applications ALL_APP_TYPES 0 (List.replicate 5 okDraws) [] false
        none 5).genCalls.length = 5 ∧
      (generate_applications ALL_APP_TYPES 0 (List.replicate 5 okDraws) [] false
        none 5).bulkCalls.map List.length = [5] ∧
      ∃ projs, (generate_applications ALL_APP_TYPES 0 (List.replicate 5 okDraws) [] false
        none 5).result = .ok projs ∧ projs.length = 5) := by
  obtain ⟨-, hlenA, appsA, projsA, hbulkA, -, happA, -⟩ :=
    (batch_counts_and_single_bulk_insert ALL_APP_TYPES 0 []).1
      [("First Registration", 2), ("Charge", 1)] (List.replicate 3 okDraws) 10
      (by simp) (by decide)
  obtain ⟨hgB, appsB, projsB, hbulkB, hresB, happB, hprojB⟩ :=
    (batch_counts_and_single_bulk_insert ALL_APP_TYPES 0 []).2
      (List.replicate 5 okDraws) 5 (by decide)
  refine ⟨⟨?_, ?_⟩, ?_, ?_, projsB, hresB, hprojB⟩
  · rw [hlenA]
    rfl
  · rw [hbulkA]
    simp [happA]
  · rw [hgB]
    rfl
  · rw [hbulkB]
    simp [happB]

/-- Claim C4: batch atomicity.  If any generation call fails, the bulk
insert is never invoked and the database is unchanged; if the bulk insert
fails, the transaction is rolled back (database unchanged) and the error
re-raised, suppressing the projection list; on success all generated
records are appended — all records of a batch are persisted, or none. -/
theorem batch_atomicity (catalog : List ApplicationType) (today : Int)
    (draws : List Draws) (db : List Application) (dbFail : Bool)
    (type_counts : Option (List (String × Nat))) (total_count : Nat) :
    (∀ e, (runGen catalog today (requestList type_counts total_count) draws).2 = .error e →
      (generate_applications catalog today draws db dbFail type_counts total_count).bulkCalls =
        [] ∧
      (generate_applications catalog today draws db dbFail type_counts total_count).db = db ∧
      (generate_applications catalog today draws db dbFail type_counts total_count).result =
        .error e) ∧
    (∀ apps projs,
      (runGen catalog today (requestList type_counts total_count) draws).2 = .ok (apps, projs) →
      ((generate_applications catalog today draws db true type_counts total_count).result =
          .error "Error bulk adding applications" ∧
        (generate_applications catalog today draws db true type_counts total_count).db = db ∧
        (generate_applications catalog today draws db true type_counts total_count).bulkCalls =
          [apps]) ∧
      ((generate_applications catalog today draws db false type_counts total_count).result =
          .ok projs ∧
        (generate_applications catalog today draws db false type_counts total_count).db =
          db ++ apps ∧
        (generate_applications catalog today draws db false type_counts total_count).bulkCalls =
          [apps])) := by
  rcases hrun : runGen catalog today (requestList type_counts total_count) draws with ⟨trace, r⟩
  constructor
  · intro e he
    dsimp at he
    subst he
    refine ⟨?_, ?_, ?_⟩ <;> simp [generate_applications, hrun]
  · intro apps projs hok2
    dsimp at hok2
    subst hok2
    constructor
    · refine ⟨?_, ?_, ?_⟩ <;> simp [generate_applications, hrun, add_bulk]
    · refine ⟨?_, ?_, ?_⟩ <;> simp [generate_applications, hrun, add_bulk_ok]

/-- Witness for claim C4: a missing type name aborts the batch before the
bulk insert (nothing persisted), and an injected persistence failure rolls
back (database unchanged) while reporting the error. -/
theorem batch_atomicity_witness :
    (generate_applications ALL_APP_TYPES 0 [okDraws] [] false
      (some [("NonExistentType", 1)]) 10).bulkCalls = [] ∧
    (generate_applications ALL_APP_TYPES 0 [okDraws] [] false
      (some [("NonExistentType", 1)]) 10).db = [] ∧
    (generate_applications ALL_APP_TYPES 0 [okDraws] [] true
      (some [("Charge", 1)]) 10).db = [] ∧
    (generate_applications ALL_APP_TYPES 0 [okDraws] [] true
      (some [("Charge", 1)]) 10).result = .error "Error bulk adding applications" := by
  have hfail := (batch_atomicity ALL_APP_TYPES 0 [okDraws] [] false
    (some [("NonExistentType", 1)]) 10).1
    "Application type 'NonExistentType' not found in database" rfl
  obtain ⟨apps, projs, hok⟩ : ∃ apps projs,
      (runGen ALL_APP_TYPES 0 (requestList (some [("Charge", 1)]) 10) [okDraws]).2 =
        .ok (apps, projs) := ⟨_, _, rfl⟩
  have hsucc := (batch_atomicity ALL_APP_TYPES 0 [okDraws] [] true
    (some [("Charge", 1)]) 10).2 apps projs hok
  exact ⟨hfail.1, hfail.2.1, hsucc.1.2.1, hsucc.1.1⟩

end UKLandRegistry
